import Mathlib

/-!
# Verification of the PiAware e-Paper status engine

Shallow embedding of the status aggregation and alerting engine of
`piaware-epaper.py` (the newer generation of the script; `epd.py` is the
near-duplicate older generation).  Pure logic is translated to Lean
functions; the HTTP transport, the Slack transport and the GPIO/display
side channels are passed in as explicit parameters; Python exceptions
are modelled with `Except`.  Latitudes and longitudes are real numbers;
JSON ages (`seen`, `seen_pos`) and thresholds are rationals, so the
filter comparisons stay decidable.
-/

/-- `Position` (`piaware-epaper.py` line 53): an arbitrary position in
latitude / longitude, in decimal degrees. -/
structure Position where
  latitude : ℝ
  longitude : ℝ

/-- Degrees to radians, as `math.radians`. -/
noncomputable def radians (x : ℝ) : ℝ := x * Real.pi / 180

/-- `PiAware.Helpers.haversine_distance` (`piaware-epaper.py` lines
132-162): great-circle distance between two positions on a sphere of the
given radius (default: the Earth radius in meters). -/
noncomputable def haversine_distance (pos1 pos2 : Position)
    (radius : ℝ := 6371.0e3) : ℝ :=
  let lat1 := radians pos1.latitude
  let lon1 := radians pos1.longitude
  let lat2 := radians pos2.latitude
  let lon2 := radians pos2.longitude
  let hav := Real.sin ((lat2 - lat1) / 2) ^ 2
    + Real.cos lat1 * Real.cos lat2 * Real.sin ((lon2 - lon1) / 2) ^ 2
  2 * radius * Real.arcsin (Real.sqrt hav)

/-- Python exceptions that can escape the embedded functions. -/
inductive PyErr
  | runtimeError (msg : String)
  | valueError (msg : String)
  | typeError (msg : String)
  | keyError (key : String)
  | jsonDecodeError
  deriving DecidableEq, Repr

/-- A URL as seen by `urllib.parse.urlparse`: scheme, network location,
and the remainder (path, query, ...). -/
structure Url where
  scheme : String
  netloc : String
  rest : String
  deriving DecidableEq, Repr

/-- `PiAware.Helpers.is_valid_url` (`piaware-epaper.py` lines 106-113):
`all([result.scheme, result.netloc])` — both parts non-empty. -/
def is_valid_url (url : Url) : Bool :=
  url.scheme ≠ "" && url.netloc ≠ ""

/-- Outcome of `r.json()` on a 200 response: a parsed body of type `β`,
or a body that fails to parse as JSON (raising when `.json()` is called). -/
inductive JsonBody (β : Type)
  | parsed (b : β)
  | malformed
  deriving DecidableEq, Repr

/-- Behaviour of the network for a single `session.get`: the request
raises a connection error (after the adapter's retries are exhausted),
or an HTTP response with a status code and a body arrives. -/
inductive Transport (β : Type)
  | connError
  | response (status : ℕ) (body : JsonBody β)
  deriving DecidableEq, Repr

/-- Value of `PiAware.Helpers.download`: a `requests.Response` (only ever
produced for status 200) or the Python constant `False`. -/
inductive DownloadResult (β : Type)
  | resp (body : JsonBody β)
  | fls
  deriving DecidableEq, Repr

/-- `PiAware.Helpers.download` (`piaware-epaper.py` lines 164-201): raises
`RuntimeError` when the URL is invalid, before any request is attempted;
otherwise returns the response when its status code is 200, and `False`
on any other status or on a connection exception (which is caught and
logged). -/
def download {β : Type} (url : Url) (net : Transport β) :
    Except PyErr (DownloadResult β) :=
  if ¬ is_valid_url url then
    .error (.runtimeError "URL is invalid")
  else
    match net with
    | .connError => .ok .fls
    | .response status body =>
        if status = 200 then .ok (.resp body) else .ok .fls

/-- Value of a fetcher such as `get_status`: the parsed JSON data, or the
empty mapping `{}` substituted on a failed download. -/
inductive FetchOut (β : Type)
  | data (b : β)
  | emptyMap
  deriving DecidableEq, Repr

/-- `PIAWARE_HOST` defaults to `http://127.0.0.1:8080`
(`piaware-epaper.py` line 33); every fetcher below targets a path under
this host, so the URL handed to `download` is always valid. -/
def piaware_host_url (path : String) : Url :=
  { scheme := "http", netloc := "127.0.0.1:8080", rest := path }

/-- `PiAware.get_status` (`piaware-epaper.py` lines 526-538): downloads
`status.json`; a `False` (or falsy) download result becomes the empty
mapping, otherwise `r.json()` is called — which raises on a malformed
body, there being no surrounding `try`. -/
def get_status {β : Type} (net : Transport β) : Except PyErr (FetchOut β) := do
  let r ← download (piaware_host_url "/status.json") net
  match r with
  | .fls => return .emptyMap
  | .resp .malformed => .error .jsonDecodeError
  | .resp (.parsed b) => return .data b

/-- `PiAware.get_receiver` (`piaware-epaper.py` lines 540-554): same
shape as `get_status`, for `skyaware/data/receiver.json`. -/
def get_receiver {β : Type} (net : Transport β) : Except PyErr (FetchOut β) := do
  let r ← download (piaware_host_url "/skyaware/data/receiver.json") net
  match r with
  | .fls => return .emptyMap
  | .resp .malformed => .error .jsonDecodeError
  | .resp (.parsed b) => return .data b

/-- One entry of the `aircraft` array of `aircraft.json`, restricted to
the fields the engine consumes.  `none` models an absent key; `mlat_lat`
is `some b` when the `mlat` sub-block is present, with `b` recording
whether that sub-block carries a `lat` key. -/
structure Aircraft where
  hex : Option String := none
  flight : Option String := none
  squawk : Option String := none
  lat : Option ℝ := none
  lon : Option ℝ := none
  seen_pos : Option ℚ := none
  seen : Option ℚ := none
  mlat_lat : Option Bool := none

/-- The parsed body of `aircraft.json`: either it carries the
`aircraft` key with its list of records, or it lacks that key. -/
inductive AircraftJson
  | withAircraft (l : List Aircraft)
  | withoutAircraft

/-- `PiAware.Helpers.check_supported` (`piaware-epaper.py` lines 86-92):
find a value in a list or raise `ValueError`. -/
def check_supported (needle : String) (haystack : List String) :
    Except PyErr Bool :=
  if needle ∈ haystack then .ok true
  else .error (.valueError "Value unsupported")

/-- `PiAware.Helpers.contains_any` (`piaware-epaper.py` lines 94-97):
does `haystack` contain `needle`, compared in UPPER case. -/
def contains_any (needle : String) (haystack : List String) : Bool :=
  haystack.any (fun element => element.toUpper == needle.toUpper)

/-- The per-record condition of the filtering loop in
`PiAware.get_aircrafts` (`piaware-epaper.py` lines 604-616): under
`adsb`, keep a record whose `seen_pos` (when `pos`) or `seen`
(otherwise) key is present with value at most the threshold; under
`mlat`, keep a record whose `mlat` sub-block is present and carries a
`lat` key; under any other mode nothing is appended (the loop only logs
a warning). -/
def aircraft_keep (pos : Bool) (mode : String) (threshold : ℚ)
    (a : Aircraft) : Bool :=
  if mode = "adsb" then
    if pos then
      match a.seen_pos with
      | some v => decide (v ≤ threshold)
      | none => false
    else
      match a.seen with
      | some v => decide (v ≤ threshold)
      | none => false
  else if mode = "mlat" then
    match a.mlat_lat with
    | some b => b
    | none => false
  else false

/-- Value of `PiAware.get_aircrafts`: the raw parsed container (a dict)
in the `raw` passthrough path, or an `int` count of the filtered list. -/
inductive AircraftsResult
  | rawJson (j : AircraftJson)
  | count (n : ℕ)

/-- `PiAware.get_aircrafts` (`piaware-epaper.py` lines 580-629): checks
the mode against `["adsb", "mlat"]` (raising `ValueError`) before the
download; a `False` download result becomes the empty mapping, a
malformed body raises from `r.json()`.  When the parsed JSON has the
`aircraft` key: the `raw` path returns the container itself, otherwise
the records passing `aircraft_keep` are collected.  In every non-`raw`
path the length of the collected list is returned — in particular
`0` (an `int`) when the `aircraft` key was absent, even under `raw`.
The Slack side-channel triggered for kept records (line 610) does not
contribute to the returned value and is not modelled. -/
def get_aircrafts (pos : Bool := true) (mode : String := "adsb")
    (threshold : ℚ := 120) (raw : Bool := false)
    (net : Transport AircraftJson) : Except PyErr AircraftsResult := do
  let _ ← check_supported mode ["adsb", "mlat"]
  let r ← download (piaware_host_url "/skyaware/data/aircraft.json") net
  let json : AircraftJson ← match r with
    | .fls => pure .withoutAircraft
    | .resp .malformed => .error .jsonDecodeError
    | .resp (.parsed j) => pure j
  match json with
  | .withAircraft l =>
      if raw then
        return .rawJson (.withAircraft l)
      else
        return .count (l.filter (aircraft_keep pos mode threshold)).length
  | .withoutAircraft => return .count 0

/-- `EMERGENCY_SQUAWK` (`piaware-epaper.py` lines 38-42): the three
emergency transponder codes with their descriptions. -/
def EMERGENCY_SQUAWK : List (String × String) :=
  [("7500", "Unlawful interference (hijacking)"),
   ("7600", "Aircraft has lost verbal communication"),
   ("7700", "General emergency")]

/-- `ICAO_OF_SPECIAL_INTEREST` (`piaware-epaper.py` lines 43-47). -/
def ICAO_OF_SPECIAL_INTEREST : List (String × String) :=
  [("3EA12C", "Luftwaffe A350-900 VIP 10+01 Konrad Adenauer"),
   ("3F5D91", "Luftwaffe A350-900 VIP 10+02 Theodor Heuss"),
   ("3E854F", "Luftwaffe A350-900 VIP 10+03 Kurt Schumacher")]

/-- `REGISTRATION_OF_SPECIAL_INTEREST` (`piaware-epaper.py` lines
48-50): empty in the source (its one entry is commented out). -/
def REGISTRATION_OF_SPECIAL_INTEREST : List (String × String) := []

/-- Python dict subscript `d[k]`: `some` value, or `none` when `k` is
absent (where the source raises `KeyError`). -/
def dict_lookup (d : List (String × String)) (k : String) : Option String :=
  (d.find? (fun p => p.1 == k)).map (fun p => p.2)

/-- The Slack credentials read from the environment:
`SLACK_BOT_TOKEN` and `SLACK_CHANNEL`. -/
structure SlackEnv where
  token : Option String
  channel : Option String

/-- Behaviour of the Slack transport for one `chat_postMessage` call
(together with the `WebClient` construction preceding it, inside the
same `try`): raise, or return a response whose `ok` field is `ok`. -/
inductive SlackTransport
  | raise
  | succeed (ok : Bool)
  deriving DecidableEq, Repr

/-- `PiAware.Helpers.send_slack_notification` (`piaware-epaper.py` lines
203-287).  With a token and channel configured, the mode is first
checked against `["emergency", "registration", "icao"]` — `ValueError`
from `check_supported` raises: this check sits OUTSIDE the `try`.
Inside the `try`, the description block is looked up in the fixed table
selected by the mode (a `KeyError` from a missing key is caught by the
`except`, yielding `False`), then the message is posted: a transport
raise is caught, yielding `False`; otherwise the truthiness of the
response's `ok` field is returned.  Without credentials, `False` is
returned without any send.  The description lookup (selected by the
mode, `piaware-epaper.py` lines 227-240) is factored out first. -/
def slack_description (mode icao_reg callsign squawk : String) :
    Option String :=
  if mode = "emergency" then dict_lookup EMERGENCY_SQUAWK squawk
  else if mode = "registration" then
    dict_lookup REGISTRATION_OF_SPECIAL_INTEREST callsign
  else dict_lookup ICAO_OF_SPECIAL_INTEREST icao_reg

/-- The dispatcher itself; the `dist` argument only feeds the message
body (lines 242-245) and does not influence the returned value. -/
def send_slack_notification (icao_reg callsign squawk : String)
    (_dist : String) (mode : String := "emergency")
    (env : SlackEnv) (tr : SlackTransport) : Except PyErr Bool :=
  match env.token, env.channel with
  | some _, some _ =>
    match check_supported mode ["emergency", "registration", "icao"] with
    | .error e => .error e
    | .ok _ =>
      match slack_description mode icao_reg callsign squawk with
      | none => .ok false
      | some _ =>
          match tr with
          | .raise => .ok false
          | .succeed ok => .ok ok
  | _, _ => .ok false

/-- The emergency counting loop of `PiAware.__has_emergency`
(`piaware-epaper.py` lines 475-512): each record whose `squawk` key is
present and matches an emergency code (case-insensitively, via
`contains_any`) adds one to the counter; for such a record the
notification call subscripts `aircraft["hex"]` without a guard, so a
matching record lacking `hex` raises `KeyError`.  The Slack and logging
side channels do not affect the count and are not modelled. -/
def emergency_scan : List Aircraft → Except PyErr ℕ
  | [] => .ok 0
  | a :: rest =>
    match a.squawk with
    | none => emergency_scan rest
    | some sq =>
      if contains_any sq (EMERGENCY_SQUAWK.map (fun p => p.1)) then
        match a.hex with
        | none => .error (.keyError "hex")
        | some _ => do
            let n ← emergency_scan rest
            return n + 1
      else emergency_scan rest

/-- Value of `PiAware.__has_emergency`: a status string in `slug` mode,
an `int` count in `count` mode. -/
inductive EmergencyResult
  | slug (s : String)
  | count (n : ℕ)
  deriving DecidableEq, Repr

/-- `PiAware.__has_emergency` (`piaware-epaper.py` lines 466-524).
Checks the mode against `["slug", "count"]`, then fetches the raw
aircraft container via `get_aircrafts(raw=True)`.  The test
`"aircraft" in aircrafts` demands an iterable/dict: when
`get_aircrafts` produced an `int` count (every failed-fetch path), the
membership test raises `TypeError`.  On a dict lacking the key, the
counter is forced to the sentinel `666`; on a dict with the key the
records are scanned by `emergency_scan`.  In `slug` mode a count of at
least 1 overrides the status string, otherwise the incoming status is
returned; `count` mode returns the counter. -/
def has_emergency (current_status : String) (mode : String := "slug")
    (net : Transport AircraftJson) : Except PyErr EmergencyResult := do
  let _ ← check_supported mode ["slug", "count"]
  let aircrafts ← get_aircrafts true "adsb" 120 true net
  let emergency : ℕ ← match aircrafts with
    | .count _ => .error (.typeError "argument of type int is not iterable")
    | .rawJson .withoutAircraft => pure 666
    | .rawJson (.withAircraft l) => emergency_scan l
  if mode = "slug" then
    if emergency ≥ 1 then
      return .slug ("!!! SQUAWK 7x00 (Count: " ++ toString emergency ++ ") !!!")
    else
      return .slug current_status
  else
    return .count emergency

/-- `sys.maxsize` on a 64-bit platform, the initial accumulator of the
`min` range computation. -/
def sysMaxsize : ℕ := 9223372036854775807

/-- The body of the aircraft loop in `PiAware.Helpers.distance`
(`piaware-epaper.py` lines 301-312): a record with `lat`, `lon` and
`seen_pos` all present and `seen_pos` within the threshold updates the
running range with its haversine distance from the origin (strict
improvement, equivalently `max` / `min`); any other record leaves the
accumulator unchanged. -/
noncomputable def distance_step (origin : Position) (mode : String)
    (threshold : ℚ) (range : ℝ) (a : Aircraft) : ℝ :=
  match a.lat, a.lon, a.seen_pos with
  | some la, some lo, some sp =>
      if sp ≤ threshold then
        let d := haversine_distance origin { latitude := la, longitude := lo }
        if mode = "max" then max range d else min range d
      else range
  | _, _, _ => range

/-- `PiAware.Helpers.distance` (`piaware-epaper.py` lines 289-320).
Checks the mode against `["min", "max"]`, fetches the raw aircraft
container via `get_aircrafts(raw=True)` and folds `distance_step` over
`aircrafts["aircraft"]`, starting from `0` for `max` and `sys.maxsize`
for `min`.  As in `__has_emergency`, the subscript raises `TypeError`
when `get_aircrafts` produced an `int` (and would raise `KeyError` on a
dict lacking the key, a value `get_aircrafts` never actually returns). -/
noncomputable def distance (origin : Position) (mode : String := "max")
    (threshold : ℚ := 120) (net : Transport AircraftJson) :
    Except PyErr ℝ := do
  let _ ← check_supported mode ["min", "max"]
  let aircrafts ← get_aircrafts true "adsb" 120 true net
  let l : List Aircraft ← match aircrafts with
    | .count _ => .error (.typeError "int object is not subscriptable")
    | .rawJson .withoutAircraft => .error (.keyError "aircraft")
    | .rawJson (.withAircraft l) => pure l
  let aircraft_range : ℝ := if mode = "max" then 0 else (sysMaxsize : ℝ)
  return l.foldl (distance_step origin mode threshold) aircraft_range

/-- The display-affecting outcome of one `PiAware.refresh` call
(`piaware-epaper.py` lines 656-804), abstracted from the telemetry and
drawing side channels it performs: whether a full display clear is
instructed before drawing (`clear_display = bool(cycle == 1)`, line
712), and the returned value `new_cycle = cycle + 1` (line 793). -/
structure RefreshStep where
  clear_display : Bool
  new_cycle : ℤ

/-- `PiAware.refresh` reduced to its cycle/clear behaviour. -/
def refresh (cycle : ℤ := 1) : RefreshStep :=
  { clear_display := decide (cycle = 1), new_cycle := cycle + 1 }

/-- `PiAware.process` loop body (`piaware-epaper.py` lines 813-817):
the persisted counter is replaced by the value `refresh` returns. -/
def process_step (cycle : ℤ) : ℤ :=
  (refresh cycle).new_cycle

/-- `PiAware.__process_interrupt` on channel 13 (`piaware-epaper.py`
lines 330-332): executes `PiAware.refresh(cycle=0)` and discards its
return value; the loop's persisted counter (a local of `process`) is
untouched.  Returns the clear flag of that forced refresh paired with
the loop counter after the interrupt. -/
def process_interrupt_pin13 (loopCycle : ℤ) : Bool × ℤ :=
  ((refresh 0).clear_display, loopCycle)

/-! ## Helper lemmas -/

lemma aircraft_keep_adsb_pos (threshold : ℚ) (a : Aircraft) :
    aircraft_keep true "adsb" threshold a = true ↔
      ∃ v, a.seen_pos = some v ∧ v ≤ threshold := by
  obtain ⟨hx, fl, sq, la, lo, sp, sn, ml⟩ := a
  cases sp <;> simp [aircraft_keep]

lemma aircraft_keep_adsb_seen (threshold : ℚ) (a : Aircraft) :
    aircraft_keep false "adsb" threshold a = true ↔
      ∃ v, a.seen = some v ∧ v ≤ threshold := by
  obtain ⟨hx, fl, sq, la, lo, sp, sn, ml⟩ := a
  cases sn <;> simp [aircraft_keep]

lemma haversine_distance_eq (pos1 pos2 : Position) (radius : ℝ) :
    haversine_distance pos1 pos2 radius
      = 2 * radius * Real.arcsin (Real.sqrt
          (Real.sin ((radians pos2.latitude - radians pos1.latitude) / 2) ^ 2
            + Real.cos (radians pos1.latitude) * Real.cos (radians pos2.latitude)
              * Real.sin ((radians pos2.longitude - radians pos1.longitude) / 2) ^ 2)) :=
  rfl

lemma hav_expr_symm (la1 lo1 la2 lo2 : ℝ) :
    Real.sin ((la2 - la1) / 2) ^ 2
        + Real.cos la1 * Real.cos la2 * Real.sin ((lo2 - lo1) / 2) ^ 2
      = Real.sin ((la1 - la2) / 2) ^ 2
        + Real.cos la2 * Real.cos la1 * Real.sin ((lo1 - lo2) / 2) ^ 2 := by
  have key : ∀ x y : ℝ, Real.sin ((x - y) / 2) ^ 2 = Real.sin ((y - x) / 2) ^ 2 := by
    intro x y
    rw [show (x - y) / 2 = -((y - x) / 2) by ring, Real.sin_neg, neg_sq]
  rw [key la2 la1, key lo2 lo1, mul_comm (Real.cos la1)]

lemma distance_step_id (origin : Position) (mode : String) (threshold : ℚ)
    (range : ℝ) (a : Aircraft)
    (h : ∀ sp : ℚ, a.lat.isSome → a.lon.isSome → a.seen_pos = some sp →
      ¬ sp ≤ threshold) :
    distance_step origin mode threshold range a = range := by
  obtain ⟨hx, fl, sq, la, lo, sp, sn, ml⟩ := a
  cases la <;> cases lo <;> cases sp <;> simp_all [distance_step]

lemma foldl_distance_step_id (origin : Position) (mode : String)
    (threshold : ℚ) :
    ∀ (l : List Aircraft) (range : ℝ),
      (∀ a ∈ l, ∀ sp : ℚ, a.lat.isSome → a.lon.isSome → a.seen_pos = some sp →
        ¬ sp ≤ threshold) →
      l.foldl (distance_step origin mode threshold) range = range := by
  intro l
  induction l with
  | nil => intro range _; rfl
  | cons a rest ih =>
      intro range h
      rw [List.foldl_cons,
        distance_step_id origin mode threshold range a (h a (List.mem_cons_self a rest))]
      exact ih range (fun a' ha' => h a' (List.mem_cons_of_mem a ha'))

/-! ## The claims -/

/-- C1: the spec says an unavailable aircraft resource (or one lacking
the `aircraft` key) forces the emergency count to the sentinel 666
without raising.  The code cannot reach its `emergency = 666` branch:
on every such input `get_aircrafts(raw=True)` returns the `int` 0, and
the membership test `"aircraft" in aircrafts` then raises `TypeError`,
which propagates out of the scan. -/
theorem C1_emergency_scan_raises_on_feed_loss :
    has_emergency "OK" "count" Transport.connError
      = .error (.typeError "argument of type int is not iterable") ∧
    has_emergency "OK" "count"
        (Transport.response 500 JsonBody.malformed)
      = .error (.typeError "argument of type int is not iterable") ∧
    has_emergency "OK" "count"
        (Transport.response 200 (JsonBody.parsed AircraftJson.withoutAircraft))
      = .error (.typeError "argument of type int is not iterable") :=
  ⟨rfl, rfl, rfl⟩

/-- C2 counterexample: a forced manual refresh (cycle argument 0) does
NOT perform a display clear — `clear_display = bool(cycle == 1)` is
false at 0. -/
theorem C2_counterexample :
    ¬ ((refresh 0).clear_display = true) := by decide

/-- C2 (amended): a forced manual refresh (cycle argument 0) performs
no display clear (the clear happens exactly when the cycle argument is
1), and the interrupt-driven call leaves the loop's persisted cycle
counter unchanged, while a normal loop step advances it by one. -/
theorem C2_manual_refresh :
    (refresh 0).clear_display = false ∧
    (∀ c : ℤ, process_interrupt_pin13 c = (false, c)) ∧
    (∀ c : ℤ, ((refresh c).clear_display = true ↔ c = 1)) ∧
    (∀ c : ℤ, process_step c = c + 1) := by
  refine ⟨rfl, fun c => rfl, fun c => ?_, fun c => rfl⟩
  simp [refresh]

/-- C3 counterexample: a 200 response whose body fails to parse as JSON
makes each fetcher raise the JSON decode error past the fetch boundary
(`r.json()` is not inside a `try`), instead of returning the empty
mapping. -/
theorem C3_counterexample :
    get_status (Transport.response 200 (JsonBody.malformed : JsonBody Unit))
      = .error .jsonDecodeError ∧
    get_receiver (Transport.response 200 (JsonBody.malformed : JsonBody Unit))
      = .error .jsonDecodeError ∧
    get_aircrafts true "adsb" 120 false (Transport.response 200 JsonBody.malformed)
      = .error .jsonDecodeError :=
  ⟨rfl, rfl, rfl⟩

/-- C3 (amended): on a connection error after retries, or on a non-2xx
(indeed non-200) status, `get_status` and `get_receiver` return the
empty mapping without raising, and `get_aircrafts` returns the count 0;
but a 200 response whose body fails to parse as JSON makes all three
raise past the fetch boundary. -/
theorem C3_fetch_failures :
    ∀ (β : Type) (status : ℕ) (b : JsonBody β) (ba : JsonBody AircraftJson),
      status ≠ 200 →
      (get_status (Transport.connError : Transport β) = .ok .emptyMap ∧
       get_status (Transport.response status b) = .ok .emptyMap ∧
       get_receiver (Transport.connError : Transport β) = .ok .emptyMap ∧
       get_receiver (Transport.response status b) = .ok .emptyMap ∧
       get_aircrafts true "adsb" 120 false Transport.connError = .ok (.count 0) ∧
       get_aircrafts true "adsb" 120 false (Transport.response status ba)
         = .ok (.count 0) ∧
       get_status (Transport.response 200 (JsonBody.malformed : JsonBody β))
         = .error .jsonDecodeError ∧
       get_receiver (Transport.response 200 (JsonBody.malformed : JsonBody β))
         = .error .jsonDecodeError ∧
       get_aircrafts true "adsb" 120 false (Transport.response 200 JsonBody.malformed)
         = .error .jsonDecodeError) := by
  intro β status b ba hstatus
  have hdl : ∀ (p : String) (b' : JsonBody β),
      download (piaware_host_url p) (Transport.response status b') = .ok .fls := by
    intro p b'
    simp [download, piaware_host_url, is_valid_url, hstatus]
  have hdla : download (piaware_host_url "/skyaware/data/aircraft.json")
      (Transport.response status ba) = .ok .fls := by
    simp [download, piaware_host_url, is_valid_url, hstatus]
  refine ⟨rfl, ?_, rfl, ?_, rfl, ?_, rfl, rfl, rfl⟩
  · unfold get_status
    rw [hdl]
    rfl
  · unfold get_receiver
    rw [hdl]
    rfl
  · unfold get_aircrafts
    rw [hdla]
    rfl

theorem C3_fetch_failures_witness :
    (500 : ℕ) ≠ 200 ∧
    (get_status (Transport.connError : Transport Unit) = .ok .emptyMap ∧
     get_status (Transport.response 500 (JsonBody.malformed : JsonBody Unit))
       = .ok .emptyMap ∧
     get_receiver (Transport.connError : Transport Unit) = .ok .emptyMap ∧
     get_receiver (Transport.response 500 (JsonBody.malformed : JsonBody Unit))
       = .ok .emptyMap ∧
     get_aircrafts true "adsb" 120 false Transport.connError = .ok (.count 0) ∧
     get_aircrafts true "adsb" 120 false (Transport.response 500 JsonBody.malformed)
       = .ok (.count 0) ∧
     get_status (Transport.response 200 (JsonBody.malformed : JsonBody Unit))
       = .error .jsonDecodeError ∧
     get_receiver (Transport.response 200 (JsonBody.malformed : JsonBody Unit))
       = .error .jsonDecodeError ∧
     get_aircrafts true "adsb" 120 false (Transport.response 200 JsonBody.malformed)
       = .error .jsonDecodeError) :=
  ⟨by decide, C3_fetch_failures Unit 500 JsonBody.malformed JsonBody.malformed
    (by decide)⟩

/-- C4: the spec says `raw=True` always returns the untouched raw
container.  The `raw` passthrough sits inside the `"aircraft" in json`
check, so on a failed fetch (connection error, non-200) and on a parsed
body lacking the `aircraft` key the call returns the `int` count 0
instead of the container as fetched. -/
theorem C4_raw_returns_count_on_failure :
    get_aircrafts true "adsb" 120 true Transport.connError
      = .ok (.count 0) ∧
    get_aircrafts true "adsb" 120 true (Transport.response 500 JsonBody.malformed)
      = .ok (.count 0) ∧
    get_aircrafts true "adsb" 120 true
        (Transport.response 200 (JsonBody.parsed AircraftJson.withoutAircraft))
      = .ok (.count 0) ∧
    (∀ l : List Aircraft,
      get_aircrafts true "adsb" 120 true
          (Transport.response 200 (JsonBody.parsed (AircraftJson.withAircraft l)))
        = .ok (.rawJson (.withAircraft l))) :=
  ⟨rfl, rfl, rfl, fun _ => rfl⟩

/-- C5: under mode `adsb` a record is kept iff the relevant age field
(`seen_pos` when filtering by position, `seen` otherwise) is present
with value at most the threshold — so a record lacking the field is
excluded regardless of the threshold, the boundary is inclusive, and
the non-raw count returned by `get_aircrafts` is the length of exactly
that filtered list. -/
theorem C5_adsb_filter :
    ∀ (threshold : ℚ) (l : List Aircraft) (a : Aircraft),
      (a ∈ l.filter (aircraft_keep true "adsb" threshold) ↔
        a ∈ l ∧ ∃ v, a.seen_pos = some v ∧ v ≤ threshold) ∧
      (a ∈ l.filter (aircraft_keep false "adsb" threshold) ↔
        a ∈ l ∧ ∃ v, a.seen = some v ∧ v ≤ threshold) ∧
      (∀ pos : Bool,
        get_aircrafts pos "adsb" threshold false
            (Transport.response 200 (JsonBody.parsed (AircraftJson.withAircraft l)))
          = .ok (.count (l.filter (aircraft_keep pos "adsb" threshold)).length)) := by
  intro th l a
  refine ⟨?_, ?_, fun pos => rfl⟩
  · rw [List.mem_filter]
    exact and_congr_right fun _ => aircraft_keep_adsb_pos th a
  · rw [List.mem_filter]
    exact and_congr_right fun _ => aircraft_keep_adsb_seen th a

/-- C6 counterexample: with credentials configured and an unsupported
mode, the dispatcher raises `ValueError` (the `check_supported` call
sits outside the `try`), contradicting "returns a boolean and never
lets an exception propagate for every input". -/
theorem C6_counterexample :
    send_slack_notification "3EA12C" "GAF927" "7700" "10.0" "bogus"
        { token := some "t", channel := some "c" } (SlackTransport.succeed true)
      = .error (.valueError "Value unsupported") :=
  rfl

/-- C6 (amended): for every input whose mode is one of the supported
three, the dispatcher returns a boolean and never raises: without a
token or channel it returns false independently of the transport, and a
transport raise is caught and reported as false.  An unsupported mode
with credentials configured raises `ValueError`. -/
theorem C6_dispatcher_boundary :
    ∀ (icao_reg callsign squawk d mode : String) (env : SlackEnv)
      (tr : SlackTransport),
      mode ∈ (["emergency", "registration", "icao"] : List String) →
      ((∃ res, send_slack_notification icao_reg callsign squawk d mode env tr
          = .ok res) ∧
       ((env.token = none ∨ env.channel = none) →
         send_slack_notification icao_reg callsign squawk d mode env tr
           = .ok false) ∧
       (tr = .raise →
         send_slack_notification icao_reg callsign squawk d mode env tr
           = .ok false)) := by
  intro icao_reg callsign squawk d mode env tr hmode
  obtain ⟨tok, chan⟩ := env
  have hcs : check_supported mode ["emergency", "registration", "icao"]
      = .ok true := by
    simp [check_supported, hmode]
  cases tok with
  | none => exact ⟨⟨false, rfl⟩, fun _ => rfl, fun _ => rfl⟩
  | some t =>
    cases chan with
    | none =>
        refine ⟨⟨false, rfl⟩, fun _ => rfl, fun _ => rfl⟩
    | some c =>
        refine ⟨?_, ?_, ?_⟩
        · cases hdesc : slack_description mode icao_reg callsign squawk with
          | none => exact ⟨false, by simp [send_slack_notification, hcs, hdesc]⟩
          | some dsc =>
            cases tr with
            | raise =>
                exact ⟨false, by simp [send_slack_notification, hcs, hdesc]⟩
            | succeed ok =>
                exact ⟨ok, by simp [send_slack_notification, hcs, hdesc]⟩
        · rintro (h | h) <;> exact absurd h (by simp)
        · rintro rfl
          cases hdesc : slack_description mode icao_reg callsign squawk <;>
            simp [send_slack_notification, hcs, hdesc]

theorem C6_dispatcher_boundary_witness :
    "emergency" ∈ (["emergency", "registration", "icao"] : List String) ∧
    ((∃ res, send_slack_notification "3EA12C" "GAF927" "7700" "10.0" "emergency"
        { token := none, channel := some "c" } SlackTransport.raise = .ok res) ∧
     (((none : Option String) = none ∨ (some "c" : Option String) = none) →
       send_slack_notification "3EA12C" "GAF927" "7700" "10.0" "emergency"
         { token := none, channel := some "c" } SlackTransport.raise = .ok false) ∧
     (SlackTransport.raise = .raise →
       send_slack_notification "3EA12C" "GAF927" "7700" "10.0" "emergency"
         { token := none, channel := some "c" } SlackTransport.raise
         = .ok false)) :=
  ⟨by decide, C6_dispatcher_boundary "3EA12C" "GAF927" "7700" "10.0" "emergency"
    { token := none, channel := some "c" } SlackTransport.raise (by decide)⟩

/-- C7: a URL that is not well-formed (empty scheme or empty network
location) makes `download` raise `RuntimeError` regardless of the state
of the network — before any request — rather than return the `False`
failure value used for network failures. -/
theorem C7_invalid_url_raises :
    ∀ (β : Type) (url : Url) (net : Transport β),
      is_valid_url url = false →
      download url net = .error (.runtimeError "URL is invalid") := by
  intro β url net h
  simp [download, h]

theorem C7_invalid_url_raises_witness :
    is_valid_url { scheme := "", netloc := "piaware", rest := "" } = false ∧
    download { scheme := "", netloc := "piaware", rest := "" }
        (Transport.connError : Transport Unit)
      = .error (.runtimeError "URL is invalid") :=
  ⟨by decide, C7_invalid_url_raises Unit _ _ (by decide)⟩

/-- C8: a mode outside `{adsb, mlat}` makes `get_aircrafts` raise
`ValueError` (from `check_supported`, which runs before the download),
for every state of the network — a fail-fast contract violation, not a
soft warning. -/
theorem C8_bad_mode_raises :
    ∀ (mode : String) (pos raw : Bool) (threshold : ℚ)
      (net : Transport AircraftJson),
      mode ∉ (["adsb", "mlat"] : List String) →
      get_aircrafts pos mode threshold raw net
        = .error (.valueError "Value unsupported") := by
  intro mode pos raw th net h
  have hcs : check_supported mode ["adsb", "mlat"]
      = .error (.valueError "Value unsupported") := by
    simp [check_supported, h]
  unfold get_aircrafts
  rw [hcs]
  rfl

theorem C8_bad_mode_raises_witness :
    "foo" ∉ (["adsb", "mlat"] : List String) ∧
    get_aircrafts true "foo" 120 false Transport.connError
      = .error (.valueError "Value unsupported") :=
  ⟨by decide, C8_bad_mode_raises "foo" true false 120 Transport.connError
    (by decide)⟩

/-- C9: the haversine distance is symmetric in its two positions, and
the distance from a position to itself is zero (for every sphere
radius). -/
theorem C9_haversine_symm_self :
    ∀ (a b : Position) (radius : ℝ),
      haversine_distance a b radius = haversine_distance b a radius ∧
      haversine_distance a a radius = 0 := by
  intro a b r
  constructor
  · rw [haversine_distance_eq, haversine_distance_eq]
    exact congrArg (fun t => 2 * r * Real.arcsin (Real.sqrt t))
      (hav_expr_symm (radians a.latitude) (radians a.longitude)
        (radians b.latitude) (radians b.longitude))
  · rw [haversine_distance_eq]
    simp

/-- C10: when the fetched aircraft container has its list but no record
carries `lat`, `lon` and `seen_pos` with `seen_pos` within the
threshold, `Helpers.distance` returns its initial accumulator
unchanged: 0 in `max` mode and `sys.maxsize` in `min` mode (the value
the Min Range display line is then rendered from). -/
theorem C10_empty_sky_range :
    ∀ (origin : Position) (threshold : ℚ) (l : List Aircraft),
      (∀ a ∈ l, ∀ sp : ℚ, a.lat.isSome → a.lon.isSome → a.seen_pos = some sp →
        ¬ sp ≤ threshold) →
      distance origin "max" threshold
          (Transport.response 200 (JsonBody.parsed (AircraftJson.withAircraft l)))
        = .ok 0 ∧
      distance origin "min" threshold
          (Transport.response 200 (JsonBody.parsed (AircraftJson.withAircraft l)))
        = .ok (sysMaxsize : ℝ) := by
  intro origin th l h
  have hmax : distance origin "max" th
      (Transport.response 200 (JsonBody.parsed (AircraftJson.withAircraft l)))
      = .ok (l.foldl (distance_step origin "max" th) 0) := rfl
  have hmin : distance origin "min" th
      (Transport.response 200 (JsonBody.parsed (AircraftJson.withAircraft l)))
      = .ok (l.foldl (distance_step origin "min" th) (sysMaxsize : ℝ)) := rfl
  rw [hmax, hmin, foldl_distance_step_id origin "max" th l 0 h,
    foldl_distance_step_id origin "min" th l (sysMaxsize : ℝ) h]
  exact ⟨rfl, rfl⟩

theorem C10_empty_sky_range_witness :
    (∀ a ∈ ([] : List Aircraft), ∀ sp : ℚ,
      a.lat.isSome → a.lon.isSome → a.seen_pos = some sp → ¬ sp ≤ 120) ∧
    (distance { latitude := 0, longitude := 0 } "max" 120
        (Transport.response 200 (JsonBody.parsed (AircraftJson.withAircraft [])))
      = .ok 0 ∧
     distance { latitude := 0, longitude := 0 } "min" 120
        (Transport.response 200 (JsonBody.parsed (AircraftJson.withAircraft [])))
      = .ok (sysMaxsize : ℝ)) :=
  ⟨by simp, C10_empty_sky_range { latitude := 0, longitude := 0 } 120 []
    (by simp)⟩
